import Mathlib

/-!
The ofLive plugin loader, `src/DynamicLibs/Libs/LibLoader.cpp`.

A shallow embedding of the loader facade and of its four C-linkage entry points
(`create`, `destroy`, `getData`, `setData`), followed by the properties of the
specification that were checked against it.

Pointers are natural numbers (`0` is the null pointer).  The C++ free store is an
explicit association list from addresses to cells; an operation that would
dereference a pointer that does not address a live cell of the expected type has
no defined behaviour and returns `none`.
-/

namespace OfLive

/-- A machine address; `0` is the null pointer. -/
abbrev Ptr := Nat

/-- Modelled from the spec: the value type of `BindingsMap`, declared in
`DynamicLibs.h` (not part of the sources at hand).  The spec describes a
Registry entry as the pair of the OS handle of the library and the interface
instance created from it. -/
structure Binding where
  handle : Ptr
  object : Ptr
deriving DecidableEq

/-- Modelled from the spec: `BindingsMap`, declared in `DynamicLibs.h` (not part
of the sources at hand): a mapping from library name to `Binding` with at most
one entry per name.  The first entry for a name is the one that counts. -/
abbrev BindingsMap := List (String × Binding)

/-- The entry a registry holds for `name`, if any (`std::map::find`). -/
def BindingsMap.find (m : BindingsMap) (name : String) : Option Binding :=
  match m with
  | [] => none
  | (k, b) :: rest => if k = name then some b else BindingsMap.find rest name

/-- The key set of a registry, as the list of names it holds. -/
def BindingsMap.keys (m : BindingsMap) : List String :=
  m.map Prod.fst

/-- The OS handles a registry holds. -/
def BindingsMap.handles (m : BindingsMap) : List Ptr :=
  m.map (fun e => e.2.handle)

/-- Assignment `m[name] = b` (`std::map::operator[]` followed by assignment):
replaces the entry for `name` or adds one. -/
def BindingsMap.assign (m : BindingsMap) (name : String) (b : Binding) : BindingsMap :=
  (name, b) :: m.filter (fun e => decide (e.1 ≠ name))

/-- The class `LibLoaderHelper : public DynamicLibs` (lines 9-23).  `libs` is the
Registry inherited from `DynamicLibs`; `defaultlib` is the typed pointer of
line 13, `none` while it has never been assigned (the class has no constructor
that initialises it). -/
structure LibLoaderHelper where
  libs : BindingsMap
  defaultlib : Option Ptr
deriving DecidableEq

/-- The class `LibLoader : public LibLoaderInterface` (lines 26-31), the Facade
Object, holding exactly one helper. -/
structure LibLoader where
  llh : LibLoaderHelper
deriving DecidableEq

/-- What a live heap address holds: a Facade Object (`new LibLoader`) or a
state blob (`new BindingsMap`). -/
inductive Cell where
  | facade (o : LibLoader)
  | blob (m : BindingsMap)
deriving DecidableEq

/-- The free store: live addresses and their contents. -/
abbrev Heap := List (Ptr × Cell)

/-- The cell at address `p`, if `p` is live. -/
def Heap.get (h : Heap) (p : Ptr) : Option Cell :=
  match h with
  | [] => none
  | (q, c) :: rest => if q = p then some c else Heap.get rest p

/-- Release of address `p` (`delete`). -/
def Heap.free (h : Heap) (p : Ptr) : Heap :=
  h.filter (fun e => decide (e.1 ≠ p))

/-- Store `c` at address `p`. -/
def Heap.set (h : Heap) (p : Ptr) (c : Cell) : Heap :=
  (p, c) :: Heap.free h p

/-- The largest live address (0 for the empty heap). -/
def Heap.top (h : Heap) : Ptr :=
  match h with
  | [] => 0
  | (q, _) :: rest => max q (Heap.top rest)

/-- The address `new` hands out: non-null and different from every live one. -/
def Heap.fresh (h : Heap) : Ptr :=
  Heap.top h + 1

/-- An observable action of the loader on the world outside the object. -/
inductive Event where
  | registerHandlers
  | load (name : String)
  | pluginSetup (object : Ptr)
  | release (handle : Ptr)
deriving DecidableEq

/-- The state of the host process as far as the loader is concerned. -/
structure Machine where
  heap : Heap
  trace : List Event
deriving DecidableEq

/-- The Registry of the Facade Object at `obj`, if `obj` is a live one. -/
def Machine.registry (m : Machine) (obj : Ptr) : Option BindingsMap :=
  match m.heap.get obj with
  | some (.facade o) => some o.llh.libs
  | _ => none

/-- Whether `obj` addresses a live Facade Object. -/
def Machine.isFacade (m : Machine) (obj : Ptr) : Bool :=
  match m.heap.get obj with
  | some (.facade _) => true
  | _ => false

/-- Modelled from the spec: the state of a default-constructed helper.  The
constructor of the base class `DynamicLibs` is not part of the sources at hand;
by the spec, Registry entries are created only during the initialisation pass,
so a new Registry is empty.  `defaultlib` has no initialiser (line 13). -/
def LibLoaderHelper.init : LibLoaderHelper :=
  { libs := [], defaultlib := none }

/-- The entry point `create` (lines 40-42): `return new LibLoader;`. -/
def create (m : Machine) : Machine × Ptr :=
  let p := m.heap.fresh
  ({ m with heap := (p, Cell.facade { llh := LibLoaderHelper.init }) :: m.heap }, p)

/-- The entry point `getData` (lines 46-51): allocate a `BindingsMap`, assign `obj->llh.libs`
to it, return its address. -/
def getData (m : Machine) (obj : Ptr) : Option (Machine × Ptr) :=
  match m.heap.get obj with
  | some (.facade o) =>
      let data := m.heap.fresh
      some ({ m with heap := (data, Cell.blob o.llh.libs) :: m.heap }, data)
  | _ => none

/-- The entry point `setData` (lines 52-56): assign the blob to `obj->llh.libs`, then
delete the blob. -/
def setData (m : Machine) (obj : Ptr) (data : Ptr) : Option Machine :=
  match m.heap.get obj, m.heap.get data with
  | some (.facade o), some (.blob b) =>
      let o1 : LibLoader := { o with llh := { o.llh with libs := b } }
      some { m with heap := Heap.free (Heap.set m.heap obj (Cell.facade o1)) data }
  | _, _ => none

/-- The entry point `destroy` (lines 43-45): `delete ( obj )`.  Deleting the null pointer does
nothing.  The destructor of the base class `DynamicLibs` is not part of the
sources at hand; by the spec it releases every library handle the Registry
holds, which is recorded in the trace. -/
def destroy (m : Machine) (obj : Ptr) : Option Machine :=
  if obj = 0 then some m
  else
    match m.heap.get obj with
    | some (.facade o) =>
        some { heap := Heap.free m.heap obj
               trace := m.trace ++ o.llh.libs.handles.map Event.release }
    | _ => none

/-- The failures the spec names, and the absence of defined behaviour. -/
inductive Error where
  | loadError
  | symbolError
  | bindingError
  | stateError
  | undefinedBehaviour
deriving DecidableEq

/-- What the operating system and the library file give for a library name:
the handle of the opened library, the instance its constructor symbol returns
and the name of the interface that instance really implements, or one of the
two ways a load can go wrong. -/
inductive LoadResult where
  | loaded (handle : Ptr) (object : Ptr) (iface : String)
  | missingFile
  | missingSymbol
deriving DecidableEq

/-- The libraries available to the host process, by name. -/
abbrev Env := String → LoadResult

/-- The result of a call that may fail: `failure` is `none` when the call
returned normally; `state` and `trace` are what the call left behind. -/
structure Outcome (σ : Type) where
  failure : Option Error
  state : σ
  trace : List Event

/-- The interface type of `defaultlib` (line 13). -/
def defaultInterface : String := "DefaultInterface"

/-- What a call of `initLib` leaves behind: the failure it raised, if any, the
Registry, the pointer it wrote through its reference parameter, if it wrote
one, together with the interface the instance at that address really
implements, and the trace. -/
structure InitLibResult where
  failure : Option Error
  libs : BindingsMap
  written : Option (Ptr × String)
  trace : List Event

/-- Modelled from the spec: `DynamicLibs::initLib`, the member template of the
base class (`DynamicLibs.cpp`, not part of the sources at hand) that line 20
calls; `expected` is the interface type of the pointer passed by reference.
By the spec the load is requested from the Dynamic Loader, which on success
records the handle and the instance in the Registry under `name` and hands the
instance back, and which fails with `LoadError` for a missing file and with
`SymbolError` for a missing constructor symbol, leaving the Registry as it
was.  The returned instance is then bound to the interface type expected at
that name; by the spec this fails with `BindingError` when the instance does
not satisfy that interface, and nothing is written through the reference
parameter then.  Every failure is surfaced to the caller. -/
def DynamicLibs.initLib (env : Env) (name : String) (expected : String)
    (libs : BindingsMap) (tr : List Event) : InitLibResult :=
  match env name with
  | .loaded handle object iface =>
      if iface = expected then
        { failure := none
          libs := libs.assign name { handle := handle, object := object }
          written := some (object, iface)
          trace := tr ++ [Event.load name] }
      else
        { failure := some Error.bindingError
          libs := libs.assign name { handle := handle, object := object }
          written := none
          trace := tr ++ [Event.load name] }
  | .missingFile =>
      { failure := some Error.loadError, libs := libs, written := none,
        trace := tr ++ [Event.load name] }
  | .missingSymbol =>
      { failure := some Error.symbolError, libs := libs, written := none,
        trace := tr ++ [Event.load name] }

/-- The value of `defaultlib` after a call of `initLib` that had it as its
reference parameter. -/
def boundPointer (old : Option Ptr) (written : Option (Ptr × String)) : Option Ptr :=
  match written with
  | some (p, _) => some p
  | none => old

/-- The method `LibLoaderHelper::initLibs` (lines 16-22):
`initLib( "Default", defaultlib )` followed by `defaultlib->setup( )`.  A
failure of `initLib` leaves the function at line 20.  The call of line 21 is
defined only through a non-null pointer to an instance that really is a
`DefaultInterface`, and then enters `setup()` of that instance; through a null
pointer, a pointer to an instance of another interface, or a pointer that line
20 did not write, it has no defined behaviour. -/
def LibLoaderHelper.initLibs (env : Env) (s : LibLoaderHelper) (tr : List Event) :
    Outcome LibLoaderHelper :=
  let r := DynamicLibs.initLib env "Default" defaultInterface s.libs tr
  let s1 : LibLoaderHelper :=
    { libs := r.libs, defaultlib := boundPointer s.defaultlib r.written }
  match r.failure with
  | some e => { failure := some e, state := s1, trace := r.trace }
  | none =>
      match r.written with
      | some (p, iface) =>
          if p ≠ 0 ∧ iface = defaultInterface then
            { failure := none, state := s1, trace := r.trace ++ [Event.pluginSetup p] }
          else
            { failure := some Error.undefinedBehaviour, state := s1, trace := r.trace }
      | none => { failure := some Error.undefinedBehaviour, state := s1, trace := r.trace }

/-- Modelled from the spec: `DynamicLibs::setup( bool )` of the base class (not
part of the sources at hand): runs the process-wide handler registration when
the flag is set, then the initialisation pass `initLibs`. -/
def DynamicLibs.setup (env : Env) (registerHandlers : Bool) (s : LibLoaderHelper)
    (tr : List Event) : Outcome LibLoaderHelper :=
  LibLoaderHelper.initLibs env s
    (if registerHandlers then tr ++ [Event.registerHandlers] else tr)

/-- The method `LibLoader::setup` (lines 33-36): `llh.setup( false )`.  The `setup` of the
helper comes from the base class, which is not part of the sources at hand, and
is a parameter here. -/
def LibLoader.setup (helperSetup : Bool → LibLoaderHelper → List Event → Outcome LibLoaderHelper)
    (o : LibLoader) (tr : List Event) : Outcome LibLoader :=
  let r := helperSetup false o.llh tr
  { failure := r.failure, state := { o with llh := r.state }, trace := r.trace }

/-- The host calls `obj->setup()` on the Facade Object at `obj`. -/
def callSetup (env : Env) (m : Machine) (obj : Ptr) : Option (Machine × Option Error) :=
  match m.heap.get obj with
  | some (.facade o) =>
      let r := LibLoader.setup (DynamicLibs.setup env) o m.trace
      some ({ heap := Heap.set m.heap obj (Cell.facade r.state), trace := r.trace }, r.failure)
  | _ => none

/-- The states the host can reach from the empty process through the five
operations of the boundary. -/
inductive Reachable (env : Env) : Machine → Prop where
  | start : Reachable env { heap := [], trace := [] }
  | create (m : Machine) : Reachable env m → Reachable env (create m).1
  | setup (m m1 : Machine) (obj : Ptr) (e : Option Error) :
      Reachable env m → callSetup env m obj = some (m1, e) → Reachable env m1
  | getData (m m1 : Machine) (obj data : Ptr) :
      Reachable env m → getData m obj = some (m1, data) → Reachable env m1
  | setData (m m1 : Machine) (obj data : Ptr) :
      Reachable env m → setData m obj data = some m1 → Reachable env m1
  | destroy (m m1 : Machine) (obj : Ptr) :
      Reachable env m → destroy m obj = some m1 → Reachable env m1

/-- Exclusive ownership: no library handle is held by the Registries of two
distinct live Facade Objects. -/
def Exclusive (m : Machine) : Prop :=
  ∀ (p q : Ptr) (rp rq : BindingsMap) (x : Ptr), p ≠ q →
    m.registry p = some rp → m.registry q = some rq →
    x ∈ rp.handles → x ∉ rq.handles

/-- An environment in which the library `Default` loads: handle 100, instance
200, implementing `iface`. -/
def envWith (iface : String) : Env :=
  fun name => if name = "Default" then LoadResult.loaded 100 200 iface else LoadResult.missingFile

/-- The scenario of the spec: construct `h`, call `setup()`, extract its
state, construct `h2`, inject the blob into `h2`.  The result is the final
machine with the addresses of `h` and `h2`. -/
def scenario (env : Env) : Option (Machine × Ptr × Ptr) :=
  let (m1, h) := create { heap := [], trace := [] }
  match callSetup env m1 h with
  | none => none
  | some (m2, _) =>
    match getData m2 h with
    | none => none
    | some (m3, blob) =>
      let (m4, h2) := create m3
      match setData m4 h2 blob with
      | none => none
      | some m5 => some (m5, h, h2)


/-- A sample process state: a Facade Object at address 1 whose Registry holds
one library and whose `defaultlib` is bound, a second Facade Object at
address 2 with another Registry, and a state blob at address 3. -/
def sampleMachine : Machine :=
  { heap :=
      [ (3, Cell.blob [("Default", { handle := 100, object := 200 })]),
        (2, Cell.facade
          { llh := { libs := [("Other", { handle := 50, object := 60 })], defaultlib := none } }),
        (1, Cell.facade
          { llh := { libs := [("Old", { handle := 7, object := 8 })], defaultlib := some 8 } }) ]
    trace := [] }

/-- The Facade Object at address 1 of `sampleMachine`. -/
def sampleFacade : LibLoader :=
  { llh := { libs := [("Old", { handle := 7, object := 8 })], defaultlib := some 8 } }

/-- The Facade Object at address 2 of `sampleMachine`. -/
def sampleFacade2 : LibLoader :=
  { llh := { libs := [("Other", { handle := 50, object := 60 })], defaultlib := none } }

/-! ## Heap lemmas -/

theorem Heap.get_free (h : Heap) (p q : Ptr) :
    (Heap.free h p).get q = if q = p then none else h.get q := by
  induction h with
  | nil => simp [Heap.free, Heap.get]
  | cons e rest ih =>
    obtain ⟨k, c⟩ := e
    unfold Heap.free at ih ⊢
    by_cases hk : k = p
    · subst hk
      simp only [List.filter, ne_eq, not_true_eq_false, decide_False]
      rw [ih]
      by_cases hq : q = k
      · simp [hq]
      · simp [hq, Heap.get, Ne.symm hq]
    · simp only [List.filter, ne_eq, hk, not_false_eq_true, decide_True, Heap.get]
      rw [ih]
      by_cases hq : q = p
      · subst hq
        simp [hk]
      · simp [hq]

theorem Heap.get_set (h : Heap) (p q : Ptr) (c : Cell) :
    (Heap.set h p c).get q = if q = p then some c else h.get q := by
  unfold Heap.set
  simp only [Heap.get]
  by_cases hq : q = p
  · simp [hq]
  · simp [hq, Ne.symm hq, Heap.get_free]

theorem Heap.le_top_of_get (h : Heap) (p : Ptr) (c : Cell) (hp : h.get p = some c) :
    p ≤ h.top := by
  induction h with
  | nil => simp [Heap.get] at hp
  | cons e rest ih =>
    obtain ⟨k, d⟩ := e
    simp only [Heap.get] at hp
    simp only [Heap.top]
    by_cases hk : k = p
    · subst hk
      exact le_max_left _ _
    · simp only [hk, if_false] at hp
      exact le_trans (ih hp) (le_max_right _ _)

theorem Heap.get_fresh (h : Heap) : h.get h.fresh = none := by
  cases hg : h.get h.fresh with
  | none => rfl
  | some c =>
    have := Heap.le_top_of_get h _ c hg
    simp [Heap.fresh] at this

theorem Heap.fresh_ne_of_get (h : Heap) (p : Ptr) (c : Cell) (hp : h.get p = some c) :
    h.fresh ≠ p := by
  intro he
  rw [← he, Heap.get_fresh] at hp
  cases hp

theorem Heap.get_cons_fresh (h : Heap) (c : Cell) (q : Ptr) :
    Heap.get ((h.fresh, c) :: h) q = if q = h.fresh then some c else h.get q := by
  simp only [Heap.get]
  by_cases hq : q = h.fresh
  · simp [hq]
  · simp [hq, Ne.symm hq]

/-! ## Registry lemmas -/

theorem BindingsMap.find_eq_none_of_not_mem_keys (r : BindingsMap) (name : String)
    (h : name ∉ r.keys) : r.find name = none := by
  induction r with
  | nil => rfl
  | cons e rest ih =>
    obtain ⟨k, b⟩ := e
    simp only [BindingsMap.keys, List.map_cons, List.mem_cons, not_or] at h
    simp only [BindingsMap.find]
    rw [if_neg (fun hk => h.1 hk.symm)]
    exact ih h.2

/-! ## The entry points unfolded on live arguments -/

theorem getData_eq (m : Machine) (obj : Ptr) (o : LibLoader)
    (hobj : m.heap.get obj = some (Cell.facade o)) :
    getData m obj =
      some ({ m with heap := (m.heap.fresh, Cell.blob o.llh.libs) :: m.heap }, m.heap.fresh) := by
  simp [getData, hobj]

theorem setData_eq (m : Machine) (obj data : Ptr) (o : LibLoader) (b : BindingsMap)
    (hobj : m.heap.get obj = some (Cell.facade o)) (hdata : m.heap.get data = some (Cell.blob b)) :
    setData m obj data =
      some { m with heap := Heap.free (Heap.set m.heap obj
        (Cell.facade { llh := { libs := b, defaultlib := o.llh.defaultlib } })) data } := by
  simp [setData, hobj, hdata]

theorem Heap.ne_of_get_facade_blob (h : Heap) (p q : Ptr) (o : LibLoader) (b : BindingsMap)
    (hp : h.get p = some (Cell.facade o)) (hq : h.get q = some (Cell.blob b)) : p ≠ q := by
  intro hpq
  rw [hpq, hq] at hp
  cases hp

/-- Extraction from `src` followed by injection into `dst`: both calls are
defined, and the resulting heap is the old one with the Registry of `dst`
replaced by that of `src`. -/
theorem transplant_eq (m : Machine) (src dst : Ptr) (os od : LibLoader)
    (hsrc : m.heap.get src = some (Cell.facade os))
    (hdst : m.heap.get dst = some (Cell.facade od)) :
    ∃ m1 data m2, getData m src = some (m1, data) ∧ setData m1 dst data = some m2 ∧
      m2.trace = m.trace ∧
      ∀ q, m2.heap.get q =
        if q = dst then
          some (Cell.facade { llh := { libs := os.llh.libs, defaultlib := od.llh.defaultlib } })
        else m.heap.get q := by
  have hfd : m.heap.fresh ≠ dst := Heap.fresh_ne_of_get _ _ _ hdst
  have h1d : Heap.get ((m.heap.fresh, Cell.blob os.llh.libs) :: m.heap) dst
      = some (Cell.facade od) := by
    rw [Heap.get_cons_fresh, if_neg (Ne.symm hfd), hdst]
  have h1b : Heap.get ((m.heap.fresh, Cell.blob os.llh.libs) :: m.heap) m.heap.fresh
      = some (Cell.blob os.llh.libs) := by
    rw [Heap.get_cons_fresh, if_pos rfl]
  refine ⟨_, _, _, getData_eq m src os hsrc,
    setData_eq { m with heap := (m.heap.fresh, Cell.blob os.llh.libs) :: m.heap } dst
      m.heap.fresh od os.llh.libs h1d h1b, rfl, ?_⟩
  intro q
  simp only [Heap.get_free, Heap.get_set, Heap.get_cons_fresh]
  by_cases hq : q = m.heap.fresh
  · subst hq
    rw [if_pos rfl, if_neg hfd, Heap.get_fresh]
  · rw [if_neg hq]
    by_cases hqd : q = dst
    · rw [if_pos hqd, if_pos hqd]
    · rw [if_neg hqd, if_neg hqd, if_neg hq]

theorem Machine.registry_of_get (m : Machine) (obj : Ptr) (o : LibLoader)
    (hobj : m.heap.get obj = some (Cell.facade o)) : m.registry obj = some o.llh.libs := by
  simp [Machine.registry, hobj]

/-! ## State extraction and injection -/

/-- C1: on a live Facade Object `obj`, `getData` is defined and returns a blob,
`setData` of that blob into the same object is defined, and afterwards the
Registry of `obj` is the one it was before: same key set, every name mapped to
the same handle and instance pointers.  The whole heap is as before (the blob
is freed again) and nothing happened in the outside world. -/
theorem getData_setData_identity (m : Machine) (obj : Ptr) (o : LibLoader)
    (hobj : m.heap.get obj = some (Cell.facade o)) :
    ∃ m1 data m2, getData m obj = some (m1, data) ∧ setData m1 obj data = some m2 ∧
      m2.registry obj = m.registry obj ∧
      m2.registry obj = some o.llh.libs ∧
      (m2.registry obj).map BindingsMap.keys = (m.registry obj).map BindingsMap.keys ∧
      (∀ name, (m2.registry obj).bind (fun r => r.find name)
        = (m.registry obj).bind (fun r => r.find name)) ∧
      (∀ q, m2.heap.get q = m.heap.get q) ∧
      m2.trace = m.trace := by
  obtain ⟨m1, data, m2, hg, hs, htr, hheap⟩ := transplant_eq m obj obj o o hobj hobj
  have hsame : ∀ q, m2.heap.get q = m.heap.get q := by
    intro q
    rw [hheap q]
    by_cases hq : q = obj
    · rw [if_pos hq, hq, hobj]
    · rw [if_neg hq]
  have hreg : m2.registry obj = m.registry obj := by
    simp only [Machine.registry, hsame obj]
  refine ⟨m1, data, m2, hg, hs, hreg, ?_, ?_, ?_, hsame, htr⟩
  · rw [hreg]
    exact Machine.registry_of_get m obj o hobj
  · rw [hreg]
  · intro name
    rw [hreg]

/-- C2: for live Facade Objects `h1` and `h2` (equal or not),
`setData(h2, getData(h1))` is defined and leaves `h2` with exactly the Registry
`h1` had at the extraction: the same key set, every name mapped to the same
handle and instance pointers, and no entry for a name that the Registry of
`h1` did not hold, whatever `h2` held before. -/
theorem setData_getData_replaces (m : Machine) (h1 h2 : Ptr) (o1 o2 : LibLoader)
    (hh1 : m.heap.get h1 = some (Cell.facade o1))
    (hh2 : m.heap.get h2 = some (Cell.facade o2)) :
    ∃ m1 data m2, getData m h1 = some (m1, data) ∧ setData m1 h2 data = some m2 ∧
      m.registry h1 = some o1.llh.libs ∧
      m2.registry h2 = some o1.llh.libs ∧
      (m2.registry h2).map BindingsMap.keys = some o1.llh.libs.keys ∧
      (∀ name, (m2.registry h2).bind (fun r => r.find name) = o1.llh.libs.find name) ∧
      (∀ name, name ∈ o2.llh.libs.keys → name ∉ o1.llh.libs.keys →
        (m2.registry h2).bind (fun r => r.find name) = none) := by
  obtain ⟨m1, data, m2, hg, hs, _, hheap⟩ := transplant_eq m h1 h2 o1 o2 hh1 hh2
  have hreg : m2.registry h2 = some o1.llh.libs := by
    simp [Machine.registry, hheap h2]
  refine ⟨m1, data, m2, hg, hs, Machine.registry_of_get m h1 o1 hh1, hreg, ?_, ?_, ?_⟩
  · rw [hreg]
    rfl
  · intro name
    rw [hreg]
    rfl
  · intro name _ hnot
    rw [hreg]
    exact BindingsMap.find_eq_none_of_not_mem_keys _ _ hnot

/-- C3: on a live Facade Object `obj`, `getData` is defined and returns the
address of a newly allocated blob (non-null, not live before the call) whose
content is the Registry of `obj` as it stands: the same list of names with the
same handle and instance pointers, nothing cloned, nothing loaded.  The object
itself, its Registry and every other live cell are as before. -/
theorem getData_snapshot (m : Machine) (obj : Ptr) (o : LibLoader)
    (hobj : m.heap.get obj = some (Cell.facade o)) :
    ∃ m1 data, getData m obj = some (m1, data) ∧
      data ≠ 0 ∧ m.heap.get data = none ∧
      m1.heap.get data = some (Cell.blob o.llh.libs) ∧
      m.registry obj = some o.llh.libs ∧
      m1.heap.get obj = some (Cell.facade o) ∧
      m1.registry obj = m.registry obj ∧
      (∀ q, q ≠ data → m1.heap.get q = m.heap.get q) ∧
      m1.trace = m.trace := by
  have hfo : m.heap.fresh ≠ obj := Heap.fresh_ne_of_get _ _ _ hobj
  have hobj1 : Heap.get ((m.heap.fresh, Cell.blob o.llh.libs) :: m.heap) obj
      = some (Cell.facade o) := by
    rw [Heap.get_cons_fresh, if_neg (Ne.symm hfo), hobj]
  refine ⟨_, _, getData_eq m obj o hobj, ?_, Heap.get_fresh _, ?_,
    Machine.registry_of_get m obj o hobj, hobj1, ?_, ?_, rfl⟩
  · simp [Heap.fresh]
  · rw [Heap.get_cons_fresh, if_pos rfl]
  · simp only [Machine.registry, hobj1, hobj]
  · intro q hq
    rw [Heap.get_cons_fresh, if_neg hq]

/-- C10: `setData` on a live Facade Object `obj` and a live blob changes, of
`obj`, only `llh.libs`: the object afterwards is the old one with the blob as
Registry and `llh.defaultlib` as it was; no other live cell changes (the blob
is freed) and nothing happens in the outside world.  `getData` leaves `obj` as
it is.  In the scenario of the spec the freshly constructed target ends up
with `"Default"` in its Registry while its `defaultlib` was never assigned. -/
theorem setData_changes_only_libs (m : Machine) (obj data : Ptr) (o : LibLoader)
    (b : BindingsMap)
    (hobj : m.heap.get obj = some (Cell.facade o))
    (hdata : m.heap.get data = some (Cell.blob b)) :
    (∃ m2, setData m obj data = some m2 ∧
      m2.heap.get obj
        = some (Cell.facade { llh := { libs := b, defaultlib := o.llh.defaultlib } }) ∧
      m2.heap.get data = none ∧
      (∀ q, q ≠ obj → q ≠ data → m2.heap.get q = m.heap.get q) ∧
      m2.trace = m.trace) ∧
    (∃ m1 p, getData m obj = some (m1, p) ∧ m1.heap.get obj = some (Cell.facade o)) ∧
    (∃ m5 h h2 o2, scenario (envWith defaultInterface) = some (m5, h, h2) ∧
      m5.heap.get h2 = some (Cell.facade o2) ∧
      o2.llh.libs.find "Default" = some { handle := 100, object := 200 } ∧
      o2.llh.defaultlib = none) := by
  have hne : obj ≠ data := Heap.ne_of_get_facade_blob m.heap obj data o b hobj hdata
  refine ⟨⟨_, setData_eq m obj data o b hobj hdata, ?_, ?_, ?_, rfl⟩, ?_, ?_⟩
  · rw [Heap.get_free, if_neg hne, Heap.get_set, if_pos rfl]
  · rw [Heap.get_free, if_pos rfl]
  · intro q hqo hqd
    simp only [Heap.get_free, Heap.get_set]
    rw [if_neg hqd, if_neg hqo]
  · refine ⟨_, _, getData_eq m obj o hobj, ?_⟩
    rw [Heap.get_cons_fresh, if_neg (Ne.symm (Heap.fresh_ne_of_get _ _ _ hobj)), hobj]
  · exact ⟨_, _, _, _, rfl, rfl, rfl, rfl⟩

/-- C5: `create` allocates a Facade Object and does nothing else: the address
it returns is non-null and was not live before, the object there has the
initial, empty Registry and a never assigned `defaultlib`, every other cell is
as before, and the trace is unchanged, so no library load was requested and no
`setup()` of a plugin ran. -/
theorem create_does_not_setup (m : Machine) :
    (create m).2 ≠ 0 ∧
    m.heap.get (create m).2 = none ∧
    (create m).1.heap.get (create m).2
      = some (Cell.facade { llh := { libs := [], defaultlib := none } }) ∧
    (create m).1.registry (create m).2 = some [] ∧
    (∀ q, q ≠ (create m).2 → (create m).1.heap.get q = m.heap.get q) ∧
    (create m).1.trace = m.trace ∧
    (∀ name, Event.load name ∈ (create m).1.trace → Event.load name ∈ m.trace) ∧
    (∀ p, Event.pluginSetup p ∈ (create m).1.trace → Event.pluginSetup p ∈ m.trace) := by
  have hget : (create m).1.heap.get (create m).2
      = some (Cell.facade { llh := { libs := [], defaultlib := none } }) := by
    simp only [create]
    rw [Heap.get_cons_fresh, if_pos rfl]
    rfl
  refine ⟨?_, Heap.get_fresh _, hget, ?_, ?_, rfl, fun _ h => h, fun _ h => h⟩
  · simp [create, Heap.fresh]
  · simp only [Machine.registry, hget]
  · intro q hq
    simp only [create] at hq ⊢
    rw [Heap.get_cons_fresh, if_neg hq]

/-! ## The initialisation pass -/

theorem LibLoaderHelper.initLibs_loaded (env : Env) (s : LibLoaderHelper) (tr : List Event)
    (h o : Ptr) (henv : env "Default" = LoadResult.loaded h o defaultInterface)
    (ho : o ≠ 0) :
    LibLoaderHelper.initLibs env s tr =
      { failure := none
        state := { libs := s.libs.assign "Default" { handle := h, object := o },
                   defaultlib := some o }
        trace := tr ++ [Event.load "Default", Event.pluginSetup o] } := by
  simp [LibLoaderHelper.initLibs, DynamicLibs.initLib, boundPointer, henv, ho]

theorem LibLoaderHelper.initLibs_loaded_null (env : Env) (s : LibLoaderHelper)
    (tr : List Event) (h : Ptr)
    (henv : env "Default" = LoadResult.loaded h 0 defaultInterface) :
    LibLoaderHelper.initLibs env s tr =
      { failure := some Error.undefinedBehaviour
        state := { libs := s.libs.assign "Default" { handle := h, object := 0 },
                   defaultlib := some 0 }
        trace := tr ++ [Event.load "Default"] } := by
  simp [LibLoaderHelper.initLibs, DynamicLibs.initLib, boundPointer, henv]

theorem LibLoaderHelper.initLibs_mismatch (env : Env) (s : LibLoaderHelper)
    (tr : List Event) (h o : Ptr) (iface : String)
    (henv : env "Default" = LoadResult.loaded h o iface) (hmis : iface ≠ defaultInterface) :
    LibLoaderHelper.initLibs env s tr =
      { failure := some Error.bindingError
        state := { libs := s.libs.assign "Default" { handle := h, object := o },
                   defaultlib := s.defaultlib }
        trace := tr ++ [Event.load "Default"] } := by
  simp [LibLoaderHelper.initLibs, DynamicLibs.initLib, boundPointer, henv, hmis]

theorem LibLoaderHelper.initLibs_missingFile (env : Env) (s : LibLoaderHelper)
    (tr : List Event) (henv : env "Default" = LoadResult.missingFile) :
    LibLoaderHelper.initLibs env s tr =
      { failure := some Error.loadError, state := s, trace := tr ++ [Event.load "Default"] } := by
  simp [LibLoaderHelper.initLibs, DynamicLibs.initLib, boundPointer, henv]

theorem LibLoaderHelper.initLibs_missingSymbol (env : Env) (s : LibLoaderHelper)
    (tr : List Event) (henv : env "Default" = LoadResult.missingSymbol) :
    LibLoaderHelper.initLibs env s tr =
      { failure := some Error.symbolError, state := s, trace := tr ++ [Event.load "Default"] } := by
  simp [LibLoaderHelper.initLibs, DynamicLibs.initLib, boundPointer, henv]

/-- The trace of the initialisation pass: the load request, followed by at most
the entry into `setup()` of one plugin. -/
theorem LibLoaderHelper.initLibs_trace (env : Env) (s : LibLoaderHelper) (tr : List Event) :
    (LibLoaderHelper.initLibs env s tr).trace = tr ++ [Event.load "Default"] ∨
    ∃ p, (LibLoaderHelper.initLibs env s tr).trace
      = tr ++ [Event.load "Default", Event.pluginSetup p] := by
  cases henv : env "Default" with
  | loaded h p iface =>
    by_cases hi : iface = defaultInterface
    · subst hi
      by_cases hp : p = 0
      · subst hp
        rw [LibLoaderHelper.initLibs_loaded_null env s tr h henv]
        exact Or.inl rfl
      · rw [LibLoaderHelper.initLibs_loaded env s tr h p henv hp]
        exact Or.inr ⟨p, rfl⟩
    · rw [LibLoaderHelper.initLibs_mismatch env s tr h p iface henv hi]
      exact Or.inl rfl
  | missingFile =>
    rw [LibLoaderHelper.initLibs_missingFile env s tr henv]
    exact Or.inl rfl
  | missingSymbol =>
    rw [LibLoaderHelper.initLibs_missingSymbol env s tr henv]
    exact Or.inl rfl

theorem BindingsMap.find_assign (r : BindingsMap) (name : String) (b : Binding) :
    (r.assign name b).find name = some b := by
  simp [BindingsMap.assign, BindingsMap.find]

theorem BindingsMap.mem_keys_assign (r : BindingsMap) (name : String) (b : Binding) :
    name ∈ (r.assign name b).keys := by
  simp [BindingsMap.assign, BindingsMap.keys]

/-- C4: `LibLoader::setup()` is the `setup` of its helper called with the flag
`false` and nothing else: the failure, the helper state and the trace it leaves
are those of `llh.setup(false)`; what the helper would do with the flag `true`
plays no part, since two helpers that agree on `false` give the same facade
`setup`; and with the helper of the base class no handler registration is
recorded. -/
theorem setup_delegates_with_false
    (helperSetup : Bool → LibLoaderHelper → List Event → Outcome LibLoaderHelper)
    (o : LibLoader) (tr : List Event) :
    (LibLoader.setup helperSetup o tr).failure = (helperSetup false o.llh tr).failure ∧
    (LibLoader.setup helperSetup o tr).state = { llh := (helperSetup false o.llh tr).state } ∧
    (LibLoader.setup helperSetup o tr).trace = (helperSetup false o.llh tr).trace ∧
    (∀ other : Bool → LibLoaderHelper → List Event → Outcome LibLoaderHelper,
      (∀ s t, other false s t = helperSetup false s t) →
        LibLoader.setup other o tr = LibLoader.setup helperSetup o tr) ∧
    (∀ env : Env,
      (LibLoader.setup (DynamicLibs.setup env) o tr).trace
          = (LibLoaderHelper.initLibs env o.llh tr).trace ∧
        (Event.registerHandlers ∈ (LibLoader.setup (DynamicLibs.setup env) o tr).trace →
          Event.registerHandlers ∈ tr)) := by
  refine ⟨rfl, rfl, rfl, ?_, ?_⟩
  · intro other hagree
    simp only [LibLoader.setup, hagree]
  · intro env
    refine ⟨rfl, ?_⟩
    have htrace : (LibLoader.setup (DynamicLibs.setup env) o tr).trace
        = (LibLoaderHelper.initLibs env o.llh tr).trace := rfl
    rw [htrace]
    rcases LibLoaderHelper.initLibs_trace env o.llh tr with h | ⟨p, h⟩
    · rw [h]
      simp
    · rw [h]
      simp

/-- C6: when the load of `"Default"` fails (missing file or missing constructor
symbol), `setup()` is aborted at line 20: the failure of the loader is what the
helper and the facade report, the only thing the call did is the load request,
no `setup()` of a plugin is entered (line 21 is not reached, so nothing is
called through `defaultlib`), and the object, with every entry its Registry
held before the call and its `defaultlib`, is as it was. -/
theorem failed_load_aborts_setup (env : Env) (o : LibLoader) (tr : List Event)
    (flag : Bool)
    (hfail : env "Default" = LoadResult.missingFile ∨ env "Default" = LoadResult.missingSymbol) :
    (DynamicLibs.setup env flag o.llh tr).failure
        = some (if env "Default" = LoadResult.missingFile then Error.loadError
                else Error.symbolError) ∧
    (DynamicLibs.setup env flag o.llh tr).state = o.llh ∧
    (DynamicLibs.setup env flag o.llh tr).trace
        = (if flag then tr ++ [Event.registerHandlers] else tr) ++ [Event.load "Default"] ∧
    (LibLoader.setup (DynamicLibs.setup env) o tr).failure
        = some (if env "Default" = LoadResult.missingFile then Error.loadError
                else Error.symbolError) ∧
    (LibLoader.setup (DynamicLibs.setup env) o tr).state = o ∧
    (LibLoader.setup (DynamicLibs.setup env) o tr).trace = tr ++ [Event.load "Default"] ∧
    (∀ p, Event.pluginSetup p ∈ (LibLoader.setup (DynamicLibs.setup env) o tr).trace →
      Event.pluginSetup p ∈ tr) := by
  rcases hfail with henv | henv
  · simp [LibLoader.setup, DynamicLibs.setup, LibLoaderHelper.initLibs_missingFile env _ _ henv,
      henv]
  · simp [LibLoader.setup, DynamicLibs.setup, LibLoaderHelper.initLibs_missingSymbol env _ _ henv,
      henv]

/-- C9: the initialisation pass requests exactly one library load, for the name
`"Default"`, and it is the first thing it does.  The pass returns normally
exactly when that load yields a non-null instance of `DefaultInterface`; then
the instance is bound to `defaultlib`, its `setup()` is entered exactly once,
after the load, and the Registry holds `"Default"` with the handle and that
non-null instance. -/
theorem initLibs_loads_binds_then_sets_up (env : Env) (s : LibLoaderHelper)
    (tr : List Event) :
    (∃ rest, (LibLoaderHelper.initLibs env s tr).trace = tr ++ Event.load "Default" :: rest ∧
      (∀ name, Event.load name ∉ rest) ∧
      (rest = [] ∨ ∃ p, rest = [Event.pluginSetup p])) ∧
    ((LibLoaderHelper.initLibs env s tr).failure = none ↔
      ∃ h p, env "Default" = LoadResult.loaded h p defaultInterface ∧ p ≠ 0) ∧
    (∀ h p, env "Default" = LoadResult.loaded h p defaultInterface → p ≠ 0 →
      (LibLoaderHelper.initLibs env s tr).failure = none ∧
      (LibLoaderHelper.initLibs env s tr).state.defaultlib = some p ∧
      (LibLoaderHelper.initLibs env s tr).trace
        = tr ++ [Event.load "Default", Event.pluginSetup p] ∧
      "Default" ∈ (LibLoaderHelper.initLibs env s tr).state.libs.keys ∧
      (LibLoaderHelper.initLibs env s tr).state.libs.find "Default"
        = some { handle := h, object := p }) ∧
    ((LibLoaderHelper.initLibs env s tr).failure = none →
      ∃ b, (LibLoaderHelper.initLibs env s tr).state.libs.find "Default" = some b ∧
        b.object ≠ 0 ∧
        (LibLoaderHelper.initLibs env s tr).state.defaultlib = some b.object ∧
        (LibLoaderHelper.initLibs env s tr).trace
          = tr ++ [Event.load "Default", Event.pluginSetup b.object]) := by
  cases henv : env "Default" with
  | loaded h p iface =>
    by_cases hi : iface = defaultInterface
    · subst hi
      by_cases hp : p = 0
      · subst hp
        rw [LibLoaderHelper.initLibs_loaded_null env s tr h henv]
        simp
      · rw [LibLoaderHelper.initLibs_loaded env s tr h p henv hp]
        refine ⟨⟨[Event.pluginSetup p], rfl, by simp, Or.inr ⟨p, rfl⟩⟩, ?_, ?_, ?_⟩
        · exact ⟨fun _ => ⟨h, p, rfl, hp⟩, fun _ => rfl⟩
        · intro h1 p1 heq hp1
          cases heq
          exact ⟨rfl, rfl, rfl, BindingsMap.mem_keys_assign _ _ _,
            BindingsMap.find_assign _ _ _⟩
        · intro _
          exact ⟨_, BindingsMap.find_assign _ _ _, hp, rfl, rfl⟩
    · rw [LibLoaderHelper.initLibs_mismatch env s tr h p iface henv hi]
      refine ⟨⟨[], rfl, by simp, Or.inl rfl⟩, ?_, ?_, ?_⟩
      · constructor
        · intro hf
          cases hf
        · rintro ⟨h1, p1, heq, _⟩
          cases heq
          exact absurd rfl hi
      · intro h1 p1 heq _
        cases heq
        exact absurd rfl hi
      · intro hf
        cases hf
  | missingFile =>
    rw [LibLoaderHelper.initLibs_missingFile env s tr henv]
    simp
  | missingSymbol =>
    rw [LibLoaderHelper.initLibs_missingSymbol env s tr henv]
    simp

theorem BindingsMap.handles_ne_nil (r : BindingsMap) (hr : r ≠ []) :
    ∃ x, x ∈ r.handles := by
  cases r with
  | nil => exact absurd rfl hr
  | cons e rest => exact ⟨e.2.handle, by simp [BindingsMap.handles]⟩

theorem not_exclusive_of_shared (m : Machine) (p q : Ptr) (r : BindingsMap) (hpq : p ≠ q)
    (hp : m.registry p = some r) (hq : m.registry q = some r) (hr : r ≠ []) :
    ¬ Exclusive m := by
  intro hex
  obtain ⟨x, hx⟩ := BindingsMap.handles_ne_nil r hr
  exact hex p q r r x hpq hp hq hx hx

/-- C8, refuted as stated: the scenario of the spec (construct `h`, `setup()`,
extract, construct `h2`, inject) is a run of the five operations, and in the
state it reaches the two live Facade Objects `h` and `h2` both hold the
library handle 100 in their Registries. -/
theorem shared_handle_counterexample :
    ∃ m h h2, scenario (envWith defaultInterface) = some (m, h, h2) ∧
      Reachable (envWith defaultInterface) m ∧
      h ≠ h2 ∧ m.isFacade h = true ∧ m.isFacade h2 = true ∧
      m.registry h = some [("Default", { handle := 100, object := 200 })] ∧
      m.registry h2 = some [("Default", { handle := 100, object := 200 })] ∧
      ¬ Exclusive m := by
  have hreach : Reachable (envWith defaultInterface)
      ((scenario (envWith defaultInterface)).get (by decide)).1 := by
    have h0 : Reachable (envWith defaultInterface) { heap := [], trace := [] } := Reachable.start
    have h1 := Reachable.create _ h0
    have h2 := Reachable.setup _ _ 1 none h1 rfl
    have h3 := Reachable.getData _ _ 1 2 h2 rfl
    have h4 := Reachable.create _ h3
    exact Reachable.setData _ _ 3 2 h4 rfl
  refine ⟨_, 1, 3, rfl, hreach, by decide, rfl, rfl, rfl, rfl, ?_⟩
  exact not_exclusive_of_shared _ 1 3 [("Default", { handle := 100, object := 200 })]
    (by decide) rfl rfl (by simp)

/-- C8, amended: a transplant duplicates no OS handle and shares the ones there
are.  For distinct live Facade Objects `h1` and `h2`, `setData(h2, getData(h1))`
is defined, requests no load and releases nothing (the trace is unchanged),
leaves `h1` with its Registry and gives `h2` the same Registry, so that the
handles of `h2` are exactly those of `h1`; when that Registry is not empty,
exclusive ownership does not hold afterwards. -/
theorem transplant_shares_handles (m : Machine) (h1 h2 : Ptr) (o1 o2 : LibLoader)
    (hh1 : m.heap.get h1 = some (Cell.facade o1))
    (hh2 : m.heap.get h2 = some (Cell.facade o2))
    (hne : h1 ≠ h2) :
    ∃ m1 data m2, getData m h1 = some (m1, data) ∧ setData m1 h2 data = some m2 ∧
      m2.trace = m.trace ∧
      m2.isFacade h1 = true ∧ m2.isFacade h2 = true ∧
      m2.registry h1 = some o1.llh.libs ∧
      m2.registry h2 = some o1.llh.libs ∧
      (m2.registry h2).map BindingsMap.handles = (m.registry h1).map BindingsMap.handles ∧
      (o1.llh.libs ≠ [] → ¬ Exclusive m2) := by
  obtain ⟨m1, data, m2, hg, hs, htr, hheap⟩ := transplant_eq m h1 h2 o1 o2 hh1 hh2
  have hget1 : m2.heap.get h1 = some (Cell.facade o1) := by
    rw [hheap h1, if_neg hne, hh1]
  have hreg1 : m2.registry h1 = some o1.llh.libs := Machine.registry_of_get m2 h1 o1 hget1
  have hreg2 : m2.registry h2 = some o1.llh.libs := by
    simp [Machine.registry, hheap h2]
  refine ⟨m1, data, m2, hg, hs, htr, ?_, ?_, hreg1, hreg2, ?_, ?_⟩
  · simp [Machine.isFacade, hget1]
  · simp [Machine.isFacade, hheap h2]
  · rw [hreg2, Machine.registry_of_get m h1 o1 hh1]
  · intro hr
    exact not_exclusive_of_shared m2 h1 h2 o1.llh.libs hne hreg1 hreg2 hr

/-! ## The theorems with hypotheses, at concrete inputs -/

/-- C1 at the Facade Object at address 1 of `sampleMachine`. -/
theorem getData_setData_identity_witness :
    sampleMachine.heap.get 1 = some (Cell.facade sampleFacade) ∧
    ∃ m1 data m2, getData sampleMachine 1 = some (m1, data) ∧
      setData m1 1 data = some m2 ∧
      m2.registry 1 = sampleMachine.registry 1 ∧
      m2.registry 1 = some sampleFacade.llh.libs ∧
      (m2.registry 1).map BindingsMap.keys = (sampleMachine.registry 1).map BindingsMap.keys ∧
      (∀ name, (m2.registry 1).bind (fun r => r.find name)
        = (sampleMachine.registry 1).bind (fun r => r.find name)) ∧
      (∀ q, m2.heap.get q = sampleMachine.heap.get q) ∧
      m2.trace = sampleMachine.trace :=
  ⟨by decide, getData_setData_identity sampleMachine 1 sampleFacade (by decide)⟩

/-- C2 from the Facade Object at address 1 of `sampleMachine` into the one at
address 2. -/
theorem setData_getData_replaces_witness :
    sampleMachine.heap.get 1 = some (Cell.facade sampleFacade) ∧
    sampleMachine.heap.get 2 = some (Cell.facade sampleFacade2) ∧
    ∃ m1 data m2, getData sampleMachine 1 = some (m1, data) ∧
      setData m1 2 data = some m2 ∧
      sampleMachine.registry 1 = some sampleFacade.llh.libs ∧
      m2.registry 2 = some sampleFacade.llh.libs ∧
      (m2.registry 2).map BindingsMap.keys = some sampleFacade.llh.libs.keys ∧
      (∀ name, (m2.registry 2).bind (fun r => r.find name)
        = sampleFacade.llh.libs.find name) ∧
      (∀ name, name ∈ sampleFacade2.llh.libs.keys → name ∉ sampleFacade.llh.libs.keys →
        (m2.registry 2).bind (fun r => r.find name) = none) :=
  ⟨by decide, by decide,
    setData_getData_replaces sampleMachine 1 2 sampleFacade sampleFacade2 (by decide) (by decide)⟩

/-- C3 at the Facade Object at address 1 of `sampleMachine`. -/
theorem getData_snapshot_witness :
    sampleMachine.heap.get 1 = some (Cell.facade sampleFacade) ∧
    ∃ m1 data, getData sampleMachine 1 = some (m1, data) ∧
      data ≠ 0 ∧ sampleMachine.heap.get data = none ∧
      m1.heap.get data = some (Cell.blob sampleFacade.llh.libs) ∧
      sampleMachine.registry 1 = some sampleFacade.llh.libs ∧
      m1.heap.get 1 = some (Cell.facade sampleFacade) ∧
      m1.registry 1 = sampleMachine.registry 1 ∧
      (∀ q, q ≠ data → m1.heap.get q = sampleMachine.heap.get q) ∧
      m1.trace = sampleMachine.trace :=
  ⟨by decide, getData_snapshot sampleMachine 1 sampleFacade (by decide)⟩

/-- C10 at the Facade Object at address 1 and the blob at address 3 of
`sampleMachine`. -/
theorem setData_changes_only_libs_witness :
    sampleMachine.heap.get 1 = some (Cell.facade sampleFacade) ∧
    sampleMachine.heap.get 3
      = some (Cell.blob [("Default", { handle := 100, object := 200 })]) ∧
    (∃ m2, setData sampleMachine 1 3 = some m2 ∧
      m2.heap.get 1
        = some (Cell.facade
            { llh := { libs := [("Default", { handle := 100, object := 200 })],
                       defaultlib := sampleFacade.llh.defaultlib } }) ∧
      m2.heap.get 3 = none ∧
      (∀ q, q ≠ 1 → q ≠ 3 → m2.heap.get q = sampleMachine.heap.get q) ∧
      m2.trace = sampleMachine.trace) ∧
    (∃ m1 p, getData sampleMachine 1 = some (m1, p) ∧
      m1.heap.get 1 = some (Cell.facade sampleFacade)) ∧
    (∃ m5 h h2 o2, scenario (envWith defaultInterface) = some (m5, h, h2) ∧
      m5.heap.get h2 = some (Cell.facade o2) ∧
      o2.llh.libs.find "Default" = some { handle := 100, object := 200 } ∧
      o2.llh.defaultlib = none) :=
  ⟨by decide, by decide,
    setData_changes_only_libs sampleMachine 1 3 sampleFacade
      [("Default", { handle := 100, object := 200 })] (by decide) (by decide)⟩

/-- C6 at a host where no library can be opened. -/
theorem failed_load_aborts_setup_witness :
    ((fun _ => LoadResult.missingFile : Env) "Default" = LoadResult.missingFile ∨
      (fun _ => LoadResult.missingFile : Env) "Default" = LoadResult.missingSymbol) ∧
    (DynamicLibs.setup (fun _ => LoadResult.missingFile) false sampleFacade.llh []).failure
        = some (if (fun _ => LoadResult.missingFile : Env) "Default" = LoadResult.missingFile
                then Error.loadError else Error.symbolError) ∧
    (DynamicLibs.setup (fun _ => LoadResult.missingFile) false sampleFacade.llh []).state
        = sampleFacade.llh ∧
    (DynamicLibs.setup (fun _ => LoadResult.missingFile) false sampleFacade.llh []).trace
        = (if false = true then [] ++ [Event.registerHandlers] else [])
          ++ [Event.load "Default"] ∧
    (LibLoader.setup (DynamicLibs.setup (fun _ => LoadResult.missingFile)) sampleFacade []).failure
        = some (if (fun _ => LoadResult.missingFile : Env) "Default" = LoadResult.missingFile
                then Error.loadError else Error.symbolError) ∧
    (LibLoader.setup (DynamicLibs.setup (fun _ => LoadResult.missingFile)) sampleFacade []).state
        = sampleFacade ∧
    (LibLoader.setup (DynamicLibs.setup (fun _ => LoadResult.missingFile)) sampleFacade []).trace
        = [] ++ [Event.load "Default"] ∧
    (∀ p, Event.pluginSetup p ∈
        (LibLoader.setup (DynamicLibs.setup (fun _ => LoadResult.missingFile))
          sampleFacade []).trace →
      Event.pluginSetup p ∈ ([] : List Event)) :=
  ⟨Or.inl rfl,
    failed_load_aborts_setup (fun _ => LoadResult.missingFile) sampleFacade [] false (Or.inl rfl)⟩

/-- C8, amended, from the Facade Object at address 1 of `sampleMachine` into
the one at address 2. -/
theorem transplant_shares_handles_witness :
    sampleMachine.heap.get 1 = some (Cell.facade sampleFacade) ∧
    sampleMachine.heap.get 2 = some (Cell.facade sampleFacade2) ∧
    (1 : Ptr) ≠ 2 ∧
    ∃ m1 data m2, getData sampleMachine 1 = some (m1, data) ∧
      setData m1 2 data = some m2 ∧
      m2.trace = sampleMachine.trace ∧
      m2.isFacade 1 = true ∧ m2.isFacade 2 = true ∧
      m2.registry 1 = some sampleFacade.llh.libs ∧
      m2.registry 2 = some sampleFacade.llh.libs ∧
      (m2.registry 2).map BindingsMap.handles
        = (sampleMachine.registry 1).map BindingsMap.handles ∧
      (sampleFacade.llh.libs ≠ [] → ¬ Exclusive m2) :=
  ⟨by decide, by decide, by decide,
    transplant_shares_handles sampleMachine 1 2 sampleFacade sampleFacade2
      (by decide) (by decide) (by decide)⟩

end OfLive
